import Mathlib

/-!
Verification of the 2D stone-skipping simulation core (Rust sources:
`basic_structs.rs`, `solver2.rs`, `stone_phy.rs`, `physics/parameters.rs`,
`physics/simulation.rs`, `physics/derivative.rs`).

Modelling conventions:
- `f64` is modelled by `ℚ` (exact arithmetic; every guard and branch of the
  source is translated literally, with the source's decimal constants).
- The `f64` library functions `sqrt`, `sin`, `cos` are runtime approximations
  with no exact rational counterpart; they enter the code only through the
  methods `.sqrt()`, `.sin()`, `.cos()`.  They are therefore passed as an
  explicit parameter bundle `FloatOps` to every translated function that
  (transitively) calls them, and all general theorems below are proved for
  every such bundle, hence in particular for the true square root and sine.
  Concrete witnesses use `ratSqrt`, which agrees with the exact square root
  whenever the (normalised) input has perfect-square numerator and
  denominator -- which covers every input a witness evaluates it on -- and
  constant stand-ins for `sin`/`cos` evaluated only at angle `0`
  (`sin 0 = 0`, `cos 0 = 1`).
- Rust `Vec<T>` is `List T`; indexed access `v[i]` inside `for` loops over
  `0..n` becomes `List.getD` over `List.range n`.
- Rust struct field mutation (`self.phase = ...`) becomes functional record
  update; functions that mutate `self` return the updated value.
- In `ℚ`, division by zero yields `0` while Rust `f64` yields `inf`/`NaN`.
  Every division in the translated code is either guarded by the source's own
  epsilon checks or reached only under hypotheses recorded in the theorems,
  so this discrepancy is never exercised.
-/

namespace DapGame

/-- Bundle of rational stand-ins for the `f64` library functions `sqrt`,
`sin`, `cos` (see the modelling conventions above). -/
structure FloatOps where
  sqrtf : ℚ → ℚ
  sinf : ℚ → ℚ
  cosf : ℚ → ℚ

/-- Computable square-root stand-in: exact whenever the normalised input has
perfect-square numerator and denominator (e.g. `ratSqrt (25/10^40) = 5/10^20`),
which holds for every input the witnesses below evaluate it on. -/
def ratSqrt (q : ℚ) : ℚ :=
  if q ≤ 0 then 0 else (Nat.sqrt q.num.toNat : ℚ) / (Nat.sqrt q.den : ℚ)

/-- Canonical `FloatOps` used by concrete witnesses: `ratSqrt` for `sqrt`,
and the constant values of `sin`/`cos` at angle `0` (every witness only
evaluates them at `0`). -/
def floatOps0 : FloatOps := ⟨ratSqrt, fun _ => 0, fun _ => 1⟩

/-- Rust `basic_structs.rs`: `Vector2D { x: f64, y: f64 }`. -/
structure Vector2D where
  x : ℚ
  y : ℚ

instance : Add Vector2D := ⟨fun a b => ⟨a.x + b.x, a.y + b.y⟩⟩

instance : Sub Vector2D := ⟨fun a b => ⟨a.x - b.x, a.y - b.y⟩⟩

instance : HMul Vector2D ℚ Vector2D := ⟨fun v s => ⟨v.x * s, v.y * s⟩⟩

/-- Rust `Vector2D::dot`. -/
def Vector2D.dot (a b : Vector2D) : ℚ := a.x * b.x + a.y * b.y

/-- Rust `Vector2D::length_squared`. -/
def Vector2D.length_squared (v : Vector2D) : ℚ := v.x * v.x + v.y * v.y

/-- Rust `Vector2D::length` (`self.length_squared().sqrt()`). -/
def Vector2D.length (F : FloatOps) (v : Vector2D) : ℚ :=
  F.sqrtf v.length_squared

/-- Rust `Vector2D::normalize`: `if len > 0.0 { self * (1.0 / len) } else { self }`. -/
def Vector2D.normalize (F : FloatOps) (v : Vector2D) : Vector2D :=
  let len := v.length F
  if len > 0 then v * (1 / len) else v

/-- Rust `basic_structs.rs`: `Quaternion { w, x, y, z }`. -/
structure Quaternion where
  w : ℚ
  x : ℚ
  y : ℚ
  z : ℚ

/-- Rust `Quaternion::identity`. -/
def Quaternion.identity : Quaternion := ⟨1, 0, 0, 0⟩

/-- Rust `Quaternion::normalize`: magnitude below `1e-10` falls back to the
identity quaternion. -/
def Quaternion.normalize (F : FloatOps) (q : Quaternion) : Quaternion :=
  let mag := F.sqrtf (q.w * q.w + q.x * q.x + q.y * q.y + q.z * q.z)
  if |mag| < 1e-10 then Quaternion.identity
  else ⟨q.w / mag, q.x / mag, q.y / mag, q.z / mag⟩

/-- Rust `physics/parameters.rs`: `enum Phase { Flying, Bouncing, Sinking }`. -/
inductive Phase where
  | Flying : Phase
  | Bouncing : Phase
  | Sinking : Phase
deriving DecidableEq

/-- Rust `physics/simulation.rs`: `StoneInfo` (the ODE state vector). -/
structure StoneInfo where
  position : Vector2D
  velocity : Vector2D
  angle : Vector2D
  angle_velocity : Vector2D

/-- Rust `stone_phy.rs`: `StoneProperties`. -/
structure StoneProperties where
  n : ℕ
  mass : ℚ
  inertia_tensor_x : ℚ
  inertia_tensor_y : ℚ
  outline_com : List Vector2D
  collision_mesh_com : List Vector2D
  d_max : ℚ

/-- Rust `impl Default for StoneProperties`: the all-zero stone. -/
def StoneProperties.default : StoneProperties := ⟨0, 0, 0, 0, [], [], 0⟩

/-- Rust `physics/parameters.rs`: `CustomSettings`. -/
structure CustomSettings where
  gravity : ℚ
  rho : ℚ
  Cl : ℚ
  Cf : ℚ
  Sim : ℚ
  M : ℚ
  beta : ℚ
  phase : Phase
  water_level : ℚ
  stone : StoneProperties
  current_submerged_polygon : List Vector2D

/-- Rust `physics/simulation.rs`: `intersect_with_horizontal`. -/
def intersect_with_horizontal (p1 p2 : Vector2D) (y : ℚ) : Option Vector2D :=
  if (p1.y - y) * (p2.y - y) > 0 then none
  else if |p1.y - p2.y| < 1e-12 then none
  else
    let t := (y - p1.y) / (p2.y - p1.y)
    some ⟨p1.x + t * (p2.x - p1.x), y⟩

/-- Rust `physics/simulation.rs`: `clip_polygon_below_line` (Sutherland-Hodgman
single-plane clip; "inside" is `y < line_y`). -/
def clip_polygon_below_line (poly : List Vector2D) (line_y : ℚ) : List Vector2D :=
  let n := poly.length
  if n = 0 then []
  else
    (List.range n).flatMap fun i =>
      let cur := poly.getD i ⟨0, 0⟩
      let next := poly.getD ((i + 1) % n) ⟨0, 0⟩
      if cur.y < line_y then
        if next.y < line_y then [next]
        else (intersect_with_horizontal cur next line_y).toList
      else
        if next.y < line_y then
          (intersect_with_horizontal cur next line_y).toList ++ [next]
        else []

/-- Rust `physics/simulation.rs`: `polygon_area` (shoelace sum, `abs * 0.5`,
zero for fewer than 3 vertices). -/
def polygon_area (poly : List Vector2D) : ℚ :=
  if poly.length < 3 then 0
  else
    let n := poly.length
    let area := (List.range n).foldl (fun acc i =>
      let pi := poly.getD i ⟨0, 0⟩
      let pj := poly.getD ((i + 1) % n) ⟨0, 0⟩
      acc + (pi.x * pj.y - pj.x * pi.y)) 0
    |area| * 0.5

/-- Rust `CustomSettings::outline_to_world`: spin rotation about the body centre,
then pitch rotation, then translation to the world position. -/
def outline_to_world (F : FloatOps) (cfg : CustomSettings) (stone : StoneInfo) :
    List Vector2D :=
  let cos_spin := F.cosf stone.angle.y
  let sin_spin := F.sinf stone.angle.y
  let cos_pitch := F.cosf stone.angle.x
  let sin_pitch := F.sinf stone.angle.x
  cfg.stone.outline_com.map fun p =>
    let x_spun := p.x * cos_spin - p.y * sin_spin
    let y_spun := p.x * sin_spin + p.y * cos_spin
    ⟨stone.position.x + (x_spun * cos_pitch - y_spun * sin_pitch),
     stone.position.y + (x_spun * sin_pitch + y_spun * cos_pitch)⟩

/-- Rust `CustomSettings::update_submerged_area`: clips the world-space outline and
caches the resulting polygon and its area in `current_submerged_polygon` and
`Sim`. -/
def update_submerged_area (F : FloatOps) (cfg : CustomSettings)
    (stone_state : StoneInfo) : CustomSettings :=
  let outline_world := outline_to_world F cfg stone_state
  let clipped := clip_polygon_below_line outline_world cfg.water_level
  { cfg with
    current_submerged_polygon := clipped
    Sim := if clipped.length < 3 then 0 else polygon_area clipped }

/-- Rust `CustomSettings::compute_vertical_force`:
`0.5 * rho * v^2 * Sim * Cl - M * gravity`. -/
def compute_vertical_force (cfg : CustomSettings) (stone : StoneInfo) : ℚ :=
  0.5 * cfg.rho * stone.velocity.length_squared * cfg.Sim * cfg.Cl -
    cfg.M * cfg.gravity

/-- Rust `CustomSettings::update_phase`: the phase state machine.  The source binds
`vertical_force` and `velocity_mag` before the sinking test but the test
itself only reads `position.y` and `velocity.x`; the unused bindings are kept
(underscore-prefixed) to mirror the source. -/
def update_phase (F : FloatOps) (cfg : CustomSettings) (stone : StoneInfo) :
    CustomSettings :=
  let _r := F.sqrtf cfg.stone.d_max
  match cfg.phase with
  | Phase.Flying =>
      if stone.position.y - _r * F.sinf stone.angle.x ≤ cfg.water_level then
        { cfg with phase := Phase.Bouncing }
      else cfg
  | Phase.Bouncing =>
      if stone.position.y - _r * F.sinf stone.angle.x > cfg.water_level ∧
          stone.velocity.y > 0 then
        { cfg with phase := Phase.Flying }
      else
        let _vertical_force := compute_vertical_force cfg stone
        let _velocity_mag := stone.velocity.length F
        if stone.position.y < -0.1 ∨ stone.velocity.x < 0.2 then
          { cfg with phase := Phase.Sinking }
        else cfg
  | Phase.Sinking => cfg

/-- Rust `physics/derivative.rs`: `pressure_center` (analytic centroid of the
clipped polygon; arithmetic mean of the vertices when the area magnitude is
below `1e-9`; `(0,0)` for fewer than 3 vertices). -/
def pressure_center (clipped : List Vector2D) : Vector2D :=
  if clipped.length < 3 then ⟨0, 0⟩
  else
    let area := polygon_area clipped
    if |area| < 1e-9 then
      let sum_x := clipped.foldl (fun acc p => acc + p.x) 0
      let sum_y := clipped.foldl (fun acc p => acc + p.y) 0
      let n : ℚ := clipped.length
      ⟨sum_x / n, sum_y / n⟩
    else
      let n := clipped.length
      let cc := (List.range n).foldl (fun acc i =>
        let p1 := clipped.getD i ⟨0, 0⟩
        let p2 := clipped.getD ((i + 1) % n) ⟨0, 0⟩
        let cross := p1.x * p2.y - p2.x * p1.y
        (acc.1 + (p1.x + p2.x) * cross, acc.2 + (p1.y + p2.y) * cross))
        ((0 : ℚ), (0 : ℚ))
      let factor := 1 / (6 * area)
      ⟨cc.1 * factor, cc.2 * factor⟩

/-- Rust `CustomSettings::calculate_instant_submerged`: recomputes the submerged
polygon and its area from the given sub-step state (never from the cache). -/
def calculate_instant_submerged (F : FloatOps) (cfg : CustomSettings)
    (stone : StoneInfo) : ℚ × List Vector2D :=
  let outline_world := outline_to_world F cfg stone
  let clipped := clip_polygon_below_line outline_world cfg.water_level
  let sim := if clipped.length < 3 then 0 else polygon_area clipped
  (sim, clipped)

/-- Rust `CustomSettings::compute_hydro_force`: drag + lift + vertical damping +
surface suction + wave-radiation damping + horizontal resistance; exactly the
zero vector when the submerged area `sim` is at most `1e-9`. -/
def compute_hydro_force (F : FloatOps) (cfg : CustomSettings)
    (stone : StoneInfo) (sim : ℚ) : Vector2D :=
  let velocity := stone.velocity
  let speed_sq := velocity.length_squared
  if sim ≤ 1e-9 then ⟨0, 0⟩
  else
    let speed := if speed_sq > 1e-9 then F.sqrtf speed_sq else 0
    let dir_v := if speed > 1e-6 then velocity * (1 / speed) else (⟨0, 0⟩ : Vector2D)
    let f_drag_mag := 0.5 * cfg.rho * sim * cfg.Cf * speed_sq
    let f_drag := dir_v * (-f_drag_mag)
    let dir_lift0 : Vector2D := ⟨-dir_v.y, dir_v.x⟩
    let dir_lift := if dir_lift0.y < 0 then dir_lift0 * (-1 : ℚ) else dir_lift0
    let f_lift_mag := 0.5 * cfg.rho * sim * cfg.Cl * speed_sq
    let f_lift := dir_lift * f_lift_mag
    let vy := velocity.y
    let damping_quad : ℚ := 20.0
    let damping_lin : ℚ := 10.0
    let damp_mag := 0.5 * cfg.rho * sim * (damping_quad * |vy| + damping_lin)
    let f_vertical_damp : Vector2D := ⟨0, -damp_mag * vy⟩
    let f_suction_y :=
      if vy > 0 then
        let perimeter := F.sqrtf sim * 4.0
        let tension_coeff : ℚ := 8.0;
        -tension_coeff * perimeter
      else 0
    let f_suction : Vector2D := ⟨0, f_suction_y⟩
    let wave_damping_coeff : ℚ := 15.0
    let f_wave_radiation : Vector2D := ⟨0, -wave_damping_coeff * sim * vy⟩
    let horizontal_resist_coeff : ℚ := 2.0
    let f_horizontal_resist : Vector2D :=
      ⟨-0.5 * cfg.rho * sim * horizontal_resist_coeff * velocity.x, 0⟩
    f_drag + f_lift + f_vertical_damp + f_suction + f_wave_radiation +
      f_horizontal_resist

/-- Rust `f64::clamp(lo, hi)` for `lo ≤ hi`. -/
def clampQ (x lo hi : ℚ) : ℚ := if x < lo then lo else if x > hi then hi else x

/-- Rust `CustomSettings::compute_angular_acceleration`: torque about the pressure
centre with a clamped arm, pitch damping, spin damping, and a clamped pitch
angular acceleration. -/
def compute_angular_acceleration (F : FloatOps) (cfg : CustomSettings)
    (stone : StoneInfo) (sim : ℚ) (clipped : List Vector2D)
    (f_hydro : Vector2D) : Vector2D :=
  let spin_damping := -cfg.beta * stone.angle_velocity.y * stone.angle_velocity.y
  if sim ≤ 1e-9 then ⟨0, spin_damping⟩
  else
    let force_point := pressure_center clipped
    let r0 := force_point - stone.position
    let max_arm : ℚ := 0.2
    let r := if r0.length_squared > max_arm * max_arm
      then (r0.normalize F) * max_arm else r0
    let torque := r.x * f_hydro.y - r.y * f_hydro.x
    let pitch_damping_coeff : ℚ := 5.0
    let pitch_damping_torque :=
      -0.5 * cfg.rho * sim * pitch_damping_coeff * stone.angle_velocity.x
    let total_torque_x := torque + pitch_damping_torque
    let inertia := if cfg.stone.inertia_tensor_x > 1e-9
      then cfg.stone.inertia_tensor_x else 0.1
    let pitch_acc := total_torque_x / inertia
    let max_acc : ℚ := 500.0
    let pitch_acc_clamped := clampQ pitch_acc (-max_acc) max_acc
    ⟨pitch_acc_clamped, spin_damping⟩

/-- Rust `CustomSettings::deriv_flying`: free flight under gravity, no torque. -/
def deriv_flying (cfg : CustomSettings) (_t : ℚ) (stone : StoneInfo) : StoneInfo :=
  ⟨stone.velocity, ⟨0, -cfg.gravity⟩, stone.angle_velocity, ⟨0, 0⟩⟩

/-- Rust `CustomSettings::deriv_bouncing`: recomputes the instantaneous submerged
polygon from the given sub-step state, then hydrodynamic force, added-mass
corrected acceleration (gravity term `(0, M * gravity)`), and angular
acceleration. -/
def deriv_bouncing (F : FloatOps) (cfg : CustomSettings) (_t : ℚ)
    (stone : StoneInfo) : StoneInfo :=
  let sc := calculate_instant_submerged F cfg stone
  let sim := sc.1
  let clipped := sc.2
  let f_hydro := compute_hydro_force F cfg stone sim
  let f_gravity : Vector2D := ⟨0, cfg.M * cfg.gravity⟩
  let f_total := f_hydro + f_gravity
  let estimated_thickness : ℚ := 0.02
  let added_mass := cfg.rho * sim * estimated_thickness * 5.0
  let effective_mass := cfg.M + added_mass
  let acceleration := f_total * (1 / effective_mass)
  let angular_acc := compute_angular_acceleration F cfg stone sim clipped f_hydro
  ⟨stone.velocity, acceleration, stone.angle_velocity, angular_acc⟩

/-- Rust `CustomSettings::deriv_sinking`: strong horizontal drag to rest. -/
def deriv_sinking (cfg : CustomSettings) (_t : ℚ) (stone : StoneInfo) : StoneInfo :=
  ⟨stone.velocity, ⟨-10.0 * stone.velocity.x, -cfg.gravity⟩, ⟨0, 0⟩, ⟨0, 0⟩⟩

/-- Rust `impl OdeSystem<StoneInfo> for CustomSettings`: phase dispatch. -/
def derivatives (F : FloatOps) (cfg : CustomSettings) (t : ℚ)
    (stone : StoneInfo) : StoneInfo :=
  match cfg.phase with
  | Phase.Flying => deriv_flying cfg t stone
  | Phase.Bouncing => deriv_bouncing F cfg t stone
  | Phase.Sinking => deriv_sinking cfg t stone

/-- Rust `solver2.rs`: the `VectorSpace` trait (vector addition and scalar
multiplication operations of a state type). -/
structure VectorSpace (T : Type) where
  add : T → T → T
  scale : T → ℚ → T

/-- Rust `solver2.rs`: `RungeKuttaSolver<T>` (the integrator holds `t` and the
current state). -/
structure RungeKuttaSolver (T : Type) where
  t : ℚ
  state : T

/-- Rust `RungeKuttaSolver::step`: one classic fixed-step RK4 step, exactly as the
source computes it (an ODE system is its `derivatives` function). -/
def RungeKuttaSolver.step {T : Type} (V : VectorSpace T)
    (s : RungeKuttaSolver T) (f : ℚ → T → T) (dt : ℚ) : RungeKuttaSolver T :=
  let y := s.state
  let t := s.t
  let k1 := f t y
  let k2_state := V.add y (V.scale k1 (0.5 * dt))
  let k2 := f (t + 0.5 * dt) k2_state
  let k3_state := V.add y (V.scale k2 (0.5 * dt))
  let k3 := f (t + 0.5 * dt) k3_state
  let k4_state := V.add y (V.scale k3 dt)
  let k4 := f (t + dt) k4_state
  let delta := V.scale
    (V.add (V.add (V.add k1 (V.scale k2 2.0)) (V.scale k3 2.0)) k4) (dt / 6.0)
  ⟨t + dt, V.add y delta⟩

/-- Rust `stone_phy.rs`: `COLLISION_MESH_POINTS = 40000`. -/
def COLLISION_MESH_POINTS : ℕ := 40000

/-- Rust `stone_phy.rs`: `DENSITY_SLATE = 2700.0` (kg/m^3). -/
def DENSITY_SLATE : ℚ := 2700.0

/-- Rust `stone_editor.rs`: `StoneBlueprint` (outline, thickness, display name). -/
structure StoneBlueprint where
  points : List Vector2D
  thickness : ℚ
  name : String

/-- Rust `stone_phy.rs`: `calculate_polygon_area` (shoelace, `(sum/2).abs()`,
zero for fewer than 3 vertices). -/
def calculate_polygon_area (polygon : List Vector2D) : ℚ :=
  if polygon.length < 3 then 0
  else
    let n := polygon.length
    let area := (List.range n).foldl (fun acc i =>
      let p1 := polygon.getD i ⟨0, 0⟩
      let p2 := polygon.getD ((i + 1) % n) ⟨0, 0⟩
      acc + (p1.x * p2.y - p2.x * p1.y)) 0
    |area / 2.0|

/-- Rust `stone_phy.rs`: `calculate_centroid` (analytic polygon centroid, mean of
vertices when the doubled signed area magnitude is below `1e-9`). -/
def calculate_centroid (polygon : List Vector2D) : Vector2D :=
  let n := polygon.length
  let acc := (List.range n).foldl (fun acc i =>
    let p1 := polygon.getD i ⟨0, 0⟩
    let p2 := polygon.getD ((i + 1) % n) ⟨0, 0⟩
    let cross_product := p1.x * p2.y - p2.x * p1.y
    (acc.1 + cross_product, acc.2.1 + (p1.x + p2.x) * cross_product,
      acc.2.2 + (p1.y + p2.y) * cross_product))
    ((0 : ℚ), (0 : ℚ), (0 : ℚ))
  let signed_area_x2 := acc.1
  if |signed_area_x2| < 1e-9 then
    let sum_x := polygon.foldl (fun a p => a + p.x) 0
    let sum_y := polygon.foldl (fun a p => a + p.y) 0
    ⟨sum_x / (n : ℚ), sum_y / (n : ℚ)⟩
  else
    let factor := 1 / (3.0 * signed_area_x2)
    ⟨acc.2.1 * factor, acc.2.2 * factor⟩

/-- The `f64::MAX` constant, `(2 - 2^-52) * 2^1023`. -/
def f64_MAX : ℚ := 2 ^ 1024 - 2 ^ 971

/-- Rust `stone_phy.rs`: `find_aabb` (bounding box via running min/max starting
from `f64::MAX` / `f64::MIN`). -/
def find_aabb (polygon : List Vector2D) : Vector2D × Vector2D :=
  let acc := polygon.foldl (fun acc p =>
    ((min acc.1.1 p.x, min acc.1.2 p.y), (max acc.2.1 p.x, max acc.2.2 p.y)))
    ((f64_MAX, f64_MAX), (-f64_MAX, -f64_MAX))
  (⟨acc.1.1, acc.1.2⟩, ⟨acc.2.1, acc.2.2⟩)

/-- Rust `stone_phy.rs`: `is_point_in_polygon` (even-odd ray casting; the edge
index `j` trails `i`, starting at `n - 1`). -/
def is_point_in_polygon (point : Vector2D) (polygon : List Vector2D) : Bool :=
  let n := polygon.length
  (List.range n).foldl (fun is_inside i =>
    let pi := polygon.getD i ⟨0, 0⟩
    let pj := polygon.getD (if i = 0 then n - 1 else i - 1) ⟨0, 0⟩
    let intersects := (decide (pi.y > point.y) ≠ decide (pj.y > point.y)) ∧
      point.x < (pj.x - pi.x) * (point.y - pi.y) / (pj.y - pi.y) + pi.x
    if intersects then !is_inside else is_inside) false

/-- Rust `stone_phy.rs`: `generate_collision_mesh` (axis-aligned grid sampling
with spacing `sqrt(area / num_points)`, keeping even-odd interior points). -/
def generate_collision_mesh (F : FloatOps) (polygon : List Vector2D)
    (num_points : ℕ) (area : ℚ) : List Vector2D :=
  if polygon.length = 0 ∨ |area| < 1e-9 then []
  else
    let mm := find_aabb polygon
    let aabb_width := mm.2.x - mm.1.x
    let aabb_height := mm.2.y - mm.1.y
    if |aabb_width| < 1e-9 ∨ |aabb_height| < 1e-9 then []
    else
      let area_per_point := area / (num_points : ℚ)
      let delta := F.sqrtf area_per_point
      let num_cols := (⌈aabb_width / delta⌉).toNat + 1
      let num_rows := (⌈aabb_height / delta⌉).toNat + 1
      (List.range num_rows).flatMap fun i =>
        let y := mm.1.y + (i : ℚ) * delta
        if y > mm.2.y then []
        else
          (List.range num_cols).flatMap fun j =>
            let x := mm.1.x + (j : ℚ) * delta
            if x > mm.2.x then []
            else if is_point_in_polygon ⟨x, y⟩ polygon then [(⟨x, y⟩ : Vector2D)]
            else []

/-- Rust `stone_phy.rs`: `calculate_inertia_z` (pitch-axis moment of inertia,
`(mass/n) * sum of x^2` over the sample points). -/
def calculate_inertia_z (mesh_points : List Vector2D) (total_mass : ℚ) : ℚ :=
  let n := mesh_points.length
  if n = 0 then 0
  else
    let mass_per_point := total_mass / (n : ℚ)
    let inertia_sum := mesh_points.foldl (fun acc p => acc + p.x * p.x) 0
    mass_per_point * inertia_sum

/-- Rust `stone_phy.rs`: `calculate_inertia_y` (spin-axis moment of inertia,
`(mass/n) * sum of (x^2 + y^2)` over the sample points). -/
def calculate_inertia_y (mesh_points : List Vector2D) (total_mass : ℚ) : ℚ :=
  let n := mesh_points.length
  if n = 0 then 0
  else
    let mass_per_point := total_mass / (n : ℚ)
    let inertia_sum := mesh_points.foldl
      (fun acc p => acc + (p.x * p.x + p.y * p.y)) 0
    mass_per_point * inertia_sum

/-- Rust `StoneProperties::new`: the property extractor (area, centroid, mass,
centre-of-mass frame outline, sampled collision mesh, inertia, `d_max`);
falls back to `StoneProperties::default` when the area magnitude is below
`1e-9`. -/
def StoneProperties.new (F : FloatOps) (blueprint : StoneBlueprint) :
    StoneProperties :=
  let area := calculate_polygon_area blueprint.points
  if |area| < 1e-9 then StoneProperties.default
  else
    let centroid := calculate_centroid blueprint.points
    let mass := |area| * blueprint.thickness * DENSITY_SLATE
    let outline_com := blueprint.points.map (fun p => p - centroid)
    let collision_mesh_com :=
      generate_collision_mesh F outline_com COLLISION_MESH_POINTS area
    let inertia_tensor_x := calculate_inertia_z collision_mesh_com mass
    let inertia_tensor_y := calculate_inertia_y collision_mesh_com mass
    let n := collision_mesh_com.length
    let d_max := collision_mesh_com.foldl (fun d_max point =>
      if point.x * point.x + point.y * point.y ≥ d_max
      then point.x * point.x + point.y * point.y else d_max) 0
    ⟨n, mass, inertia_tensor_x, inertia_tensor_y, outline_com,
      collision_mesh_com, d_max⟩

/-- The RK4 update exactly as the specification writes it:
`k1 = f(t, y)`, `k2 = f(t + dt/2, y + k1*dt/2)`, `k3 = f(t + dt/2, y + k2*dt/2)`,
`k4 = f(t + dt, y + k3*dt)`, result `y + (dt/6)*(k1 + 2*k2 + 2*k3 + k4)`.
Written from the specification text, to be compared with
`RungeKuttaSolver.step` (which is written from the source). -/
def rk4_spec {T : Type} (V : VectorSpace T) (f : ℚ → T → T) (t : ℚ) (y : T)
    (dt : ℚ) : T :=
  let k1 := f t y
  let k2 := f (t + dt / 2) (V.add y (V.scale k1 (dt / 2)))
  let k3 := f (t + dt / 2) (V.add y (V.scale k2 (dt / 2)))
  let k4 := f (t + dt) (V.add y (V.scale k3 dt))
  V.add y
    (V.scale (V.add (V.add (V.add k1 (V.scale k2 2)) (V.scale k3 2)) k4) (dt / 6))

/-- Example configuration for the sinking-heuristic claims: a default stone
(`d_max = 0`) bouncing on water at level `0`. -/
def exC1_cfg : CustomSettings :=
  ⟨9.8, 1000, 0.2, 0.05, 0.01, 1, 0.02, Phase.Bouncing, 0,
    StoneProperties.default, []⟩

/-- Example state at the water surface moving horizontally at `0.3 m/s`. -/
def exC1_s1 : StoneInfo := ⟨⟨0, 0⟩, ⟨0.3, 0⟩, ⟨0, 0⟩, ⟨0, 0⟩⟩

/-- Example state at the water surface moving vertically at `0.3 m/s`
(same speed and same vertical-force estimate as `exC1_s1`). -/
def exC1_s2 : StoneInfo := ⟨⟨0, 0⟩, ⟨0, 0.3⟩, ⟨0, 0⟩, ⟨0, 0⟩⟩

/-- C3: for every state type with `VectorSpace` operations, every derivative
function `f`, time `t`, state `y` and step `dt`, `RungeKuttaSolver::step`
replaces the state with `y + (dt/6)*(k1 + 2*k2 + 2*k3 + k4)` (with the
`k_i` as in the classic RK4 scheme) and the time with `t + dt`. -/
theorem step_is_classic_rk4 {T : Type} (V : VectorSpace T) (f : ℚ → T → T)
    (t : ℚ) (y : T) (dt : ℚ) :
    RungeKuttaSolver.step V ⟨t, y⟩ f dt = ⟨t + dt, rk4_spec V f t y dt⟩ := by
  have h2 : (0.5 : ℚ) * dt = dt / 2 := by
    rw [show (0.5 : ℚ) = 1 / 2 by norm_num]; ring
  have h6 : dt / (6.0 : ℚ) = dt / 6 := by norm_num
  have h2' : (2.0 : ℚ) = 2 := by norm_num
  simp only [RungeKuttaSolver.step, rk4_spec, h2, h6, h2']

/-- C2: `deriv_bouncing` is independent of the cached submerged polygon and
cached submerged area: two configurations equal in every field except
`current_submerged_polygon` and `Sim` produce the same derivative for every
state and time (the instantaneous submerged polygon is recomputed from the
given sub-step state). -/
theorem deriv_bouncing_independent_of_cache (F : FloatOps)
    (cfg1 cfg2 : CustomSettings)
    (hg : cfg1.gravity = cfg2.gravity) (hrho : cfg1.rho = cfg2.rho)
    (hCl : cfg1.Cl = cfg2.Cl) (hCf : cfg1.Cf = cfg2.Cf)
    (hM : cfg1.M = cfg2.M) (hbeta : cfg1.beta = cfg2.beta)
    (hphase : cfg1.phase = cfg2.phase)
    (hw : cfg1.water_level = cfg2.water_level)
    (hstone : cfg1.stone = cfg2.stone)
    (t : ℚ) (s : StoneInfo) :
    deriv_bouncing F cfg1 t s = deriv_bouncing F cfg2 t s := by
  cases cfg1
  cases cfg2
  dsimp only at hg hrho hCl hCf hM hbeta hphase hw hstone
  subst hg hrho hCl hCf hM hbeta hphase hw hstone
  rfl

/-- Witness for C2: two concrete configurations differing exactly in `Sim`
and `current_submerged_polygon` yield the same bouncing derivative. -/
theorem deriv_bouncing_independent_of_cache_witness :
    deriv_bouncing floatOps0
      ⟨9.8, 1000, 0.2, 0.05, 0.01, 1, 0.02, Phase.Bouncing, 0,
        StoneProperties.default, []⟩ 0 exC1_s1 =
    deriv_bouncing floatOps0
      ⟨9.8, 1000, 0.2, 0.05, 7, 1, 0.02, Phase.Bouncing, 0,
        StoneProperties.default, [⟨1, 1⟩]⟩ 0 exC1_s1 :=
  deriv_bouncing_independent_of_cache floatOps0 _ _ rfl rfl rfl rfl rfl rfl
    rfl rfl rfl 0 exC1_s1

/-- C7: under `update_phase`, a configuration in `Flying` can only stay in
`Flying` or move to `Bouncing` (never directly to `Sinking`), and `Sinking`
is terminal. -/
theorem update_phase_flying_and_sinking_transitions (F : FloatOps)
    (cfg : CustomSettings) (s : StoneInfo) :
    (cfg.phase = Phase.Flying →
      (update_phase F cfg s).phase = Phase.Flying ∨
        (update_phase F cfg s).phase = Phase.Bouncing) ∧
    (cfg.phase = Phase.Sinking →
      (update_phase F cfg s).phase = Phase.Sinking) := by
  obtain ⟨g, rho, Cl, Cf, Sim, M, beta, ph, w, st, poly⟩ := cfg
  constructor
  · intro h
    dsimp only at h
    subst h
    simp only [update_phase]
    split
    · right; rfl
    · left; rfl
  · intro h
    dsimp only at h
    subst h
    rfl

/-- Witness for C7: a concrete `Flying` configuration lands in
`Flying` or `Bouncing`, and a concrete `Sinking` configuration stays in
`Sinking`. -/
theorem update_phase_flying_and_sinking_transitions_witness :
    ((update_phase floatOps0
        ⟨9.8, 1000, 0.2, 0.05, 0.01, 1, 0.02, Phase.Flying, 0,
          StoneProperties.default, []⟩ exC1_s1).phase = Phase.Flying ∨
      (update_phase floatOps0
        ⟨9.8, 1000, 0.2, 0.05, 0.01, 1, 0.02, Phase.Flying, 0,
          StoneProperties.default, []⟩ exC1_s1).phase = Phase.Bouncing) ∧
    (update_phase floatOps0
        ⟨9.8, 1000, 0.2, 0.05, 0.01, 1, 0.02, Phase.Sinking, 0,
          StoneProperties.default, []⟩ exC1_s1).phase = Phase.Sinking :=
  ⟨(update_phase_flying_and_sinking_transitions floatOps0 _ exC1_s1).1 rfl,
    (update_phase_flying_and_sinking_transitions floatOps0 _ exC1_s1).2 rfl⟩

/-- C8: in `Bouncing`, when the lowest-point estimate
`position.y - sqrt(d_max) * sin(pitch)` is strictly above the water level and
the vertical velocity is strictly positive, a single `update_phase` call
yields `Flying` -- with no one-step lag and regardless of the sinking
heuristic, which is only tested after this early return. -/
theorem update_phase_bouncing_to_flying (F : FloatOps) (cfg : CustomSettings)
    (s : StoneInfo) (hph : cfg.phase = Phase.Bouncing)
    (h1 : s.position.y - F.sqrtf cfg.stone.d_max * F.sinf s.angle.x >
      cfg.water_level)
    (h2 : s.velocity.y > 0) :
    (update_phase F cfg s).phase = Phase.Flying := by
  obtain ⟨g, rho, Cl, Cf, Sim, M, beta, ph, w, st, poly⟩ := cfg
  dsimp only at hph h1
  subst hph
  simp only [update_phase, if_pos (And.intro h1 h2)]

/-- Witness for C8: a concrete bouncing state 5 m above the water moving
upward (and with horizontal speed `0 < 0.2`, so the sinking test would also
fire) transitions to `Flying` on this very call. -/
theorem update_phase_bouncing_to_flying_witness :
    (update_phase floatOps0 exC1_cfg
      ⟨⟨0, 5⟩, ⟨0, 1⟩, ⟨0, 0⟩, ⟨0, 0⟩⟩).phase = Phase.Flying :=
  update_phase_bouncing_to_flying floatOps0 exC1_cfg
    ⟨⟨0, 5⟩, ⟨0, 1⟩, ⟨0, 0⟩, ⟨0, 0⟩⟩ rfl
    (by norm_num [exC1_cfg, floatOps0, ratSqrt, StoneProperties.default])
    (by norm_num)

/-- Counterexample for C1 as stated: the `Bouncing → Sinking` transition is
not determined by the vertical-force estimate and the speed.  Two states
with the same vertical-force estimate and the same squared speed (hence
the same speed for every square root), neither satisfying the leave-water
condition, are treated differently: `update_phase` keeps the first in
`Bouncing` and sends the second to `Sinking`. -/
theorem update_phase_sinking_heuristic_counterexample :
    compute_vertical_force exC1_cfg exC1_s1 =
      compute_vertical_force exC1_cfg exC1_s2 ∧
    Vector2D.length_squared exC1_s1.velocity =
      Vector2D.length_squared exC1_s2.velocity ∧
    ¬(exC1_s1.position.y - floatOps0.sqrtf exC1_cfg.stone.d_max *
        floatOps0.sinf exC1_s1.angle.x > exC1_cfg.water_level ∧
      exC1_s1.velocity.y > 0) ∧
    ¬(exC1_s2.position.y - floatOps0.sqrtf exC1_cfg.stone.d_max *
        floatOps0.sinf exC1_s2.angle.x > exC1_cfg.water_level ∧
      exC1_s2.velocity.y > 0) ∧
    (update_phase floatOps0 exC1_cfg exC1_s1).phase = Phase.Bouncing ∧
    (update_phase floatOps0 exC1_cfg exC1_s2).phase = Phase.Sinking := by
  norm_num [update_phase, compute_vertical_force, Vector2D.length_squared,
    Vector2D.length, floatOps0, ratSqrt, exC1_cfg, exC1_s1, exC1_s2,
    StoneProperties.default]

/-- C1 (amended): in the `Bouncing` phase, when the leave-water condition
does not hold, `update_phase` transitions to `Sinking` if and only if
`position.y < -0.1` or `velocity.x < 0.2` -- a depth test and a horizontal
velocity test; the vertical-force estimate and the speed are computed but
unused. -/
theorem update_phase_bouncing_to_sinking_iff (F : FloatOps)
    (cfg : CustomSettings) (s : StoneInfo) (hph : cfg.phase = Phase.Bouncing)
    (hlw : ¬(s.position.y - F.sqrtf cfg.stone.d_max * F.sinf s.angle.x >
        cfg.water_level ∧ s.velocity.y > 0)) :
    (update_phase F cfg s).phase = Phase.Sinking ↔
      (s.position.y < -0.1 ∨ s.velocity.x < 0.2) := by
  obtain ⟨g, rho, Cl, Cf, Sim, M, beta, ph, w, st, poly⟩ := cfg
  dsimp only at hph hlw
  subst hph
  simp only [update_phase, if_neg hlw]
  split
  · next h => simpa using h
  · next h => simpa using h

/-- Witness for the amended C1: a concrete bouncing state with horizontal
velocity `0 < 0.2` (and leave-water false) transitions to `Sinking`. -/
theorem update_phase_bouncing_to_sinking_iff_witness :
    (update_phase floatOps0 exC1_cfg exC1_s2).phase = Phase.Sinking :=
  (update_phase_bouncing_to_sinking_iff floatOps0 exC1_cfg exC1_s2 rfl
    (by norm_num [exC1_cfg, exC1_s2, floatOps0, ratSqrt,
      StoneProperties.default])).mpr
    (Or.inr (by norm_num [exC1_s2]))

/-- Unfolding lemma for `Vector2D` addition. -/
theorem Vector2D.add_def (a b : Vector2D) : a + b = ⟨a.x + b.x, a.y + b.y⟩ := rfl

/-- Unfolding lemma for `Vector2D` subtraction. -/
theorem Vector2D.sub_def (a b : Vector2D) : a - b = ⟨a.x - b.x, a.y - b.y⟩ := rfl

/-- Unfolding lemma for scalar multiplication of a `Vector2D`. -/
theorem Vector2D.mul_def (v : Vector2D) (s : ℚ) : v * s = ⟨v.x * s, v.y * s⟩ :=
  rfl

/-- C9 (amended): `Quaternion::normalize` returns the identity quaternion
whenever the magnitude is below the `1e-10` epsilon, and
`Vector2D::normalize` returns its argument unchanged exactly when the length
is not positive (its guard is `len > 0.0`, with no epsilon); in both cases no
division is performed, so neither function can divide by zero. -/
theorem normalize_guards (F : FloatOps) (q : Quaternion) (v : Vector2D) :
    (|F.sqrtf (q.w * q.w + q.x * q.x + q.y * q.y + q.z * q.z)| < 1e-10 →
      q.normalize F = Quaternion.identity) ∧
    (¬ v.length F > 0 → v.normalize F = v) := by
  constructor
  · intro h
    simp only [Quaternion.normalize, if_pos h]
  · intro h
    simp only [Vector2D.normalize, if_neg h]

/-- Witness for the amended C9: the zero quaternion has magnitude `0 < 1e-10`
and normalises to the identity; the zero vector has length `0` and is
returned unchanged. -/
theorem normalize_guards_witness :
    Quaternion.normalize floatOps0 ⟨0, 0, 0, 0⟩ = Quaternion.identity ∧
    Vector2D.normalize floatOps0 ⟨0, 0⟩ = ⟨0, 0⟩ :=
  ⟨(normalize_guards floatOps0 ⟨0, 0, 0, 0⟩ ⟨0, 0⟩).1
      (by norm_num [floatOps0, ratSqrt]),
    (normalize_guards floatOps0 ⟨0, 0, 0, 0⟩ ⟨0, 0⟩).2
      (by norm_num [floatOps0, ratSqrt, Vector2D.length,
        Vector2D.length_squared])⟩

/-- A concrete vector of magnitude `5e-11`, below the `1e-10` epsilon. -/
def exC9_v : Vector2D := ⟨3 / 10 ^ 11, 4 / 10 ^ 11⟩

/-- Counterexample for C9 as stated: `Vector2D::normalize` has no `1e-10`
epsilon guard.  For the vector `(3e-11, 4e-11)` -- whose magnitude here is
the exact square root of its squared length, namely `5e-11 < 1e-10` -- the
function divides by that near-zero magnitude and returns `(3/5, 4/5)`, not
the vector unchanged. -/
theorem normalize_small_vector_counterexample :
    Vector2D.length floatOps0 exC9_v * Vector2D.length floatOps0 exC9_v =
      Vector2D.length_squared exC9_v ∧
    0 < Vector2D.length floatOps0 exC9_v ∧
    Vector2D.length floatOps0 exC9_v < 1e-10 ∧
    Vector2D.normalize floatOps0 exC9_v = ⟨3 / 5, 4 / 5⟩ ∧
    Vector2D.normalize floatOps0 exC9_v ≠ exC9_v := by
  have hsq : Nat.sqrt (4 * 10 ^ 20) = 2 * 10 ^ 10 := by
    rw [show (4 * 10 ^ 20 : ℕ) = (2 * 10 ^ 10) * (2 * 10 ^ 10) by norm_num]
    exact Nat.sqrt_eq _
  have hlsq : Vector2D.length_squared exC9_v = 25 / 10 ^ 22 := by
    norm_num [Vector2D.length_squared, exC9_v]
  have hlen : Vector2D.length floatOps0 exC9_v = 1 / (2 * 10 ^ 10) := by
    rw [Vector2D.length, hlsq]
    show ratSqrt _ = _
    rw [ratSqrt, if_neg (by norm_num)]
    norm_num [hsq]
  refine ⟨?_, ?_, ?_, ?_, ?_⟩
  · rw [hlen, hlsq]; norm_num
  · rw [hlen]; norm_num
  · rw [hlen]; norm_num
  · rw [Vector2D.normalize]
    rw [hlen]  -- rewrite the let-bound length
    norm_num [exC9_v, Vector2D.mul_def]
  · rw [Vector2D.normalize]
    rw [hlen]
    norm_num [exC9_v, Vector2D.mul_def]

/-- Folding `+ f p` over a list starting from `a` is `a` plus the sum of the
mapped values. -/
theorem foldl_add_eq_sum (f : Vector2D → ℚ) :
    ∀ (l : List Vector2D) (a : ℚ),
      l.foldl (fun acc p => acc + f p) a = a + (l.map f).sum := by
  intro l
  induction l with
  | nil => intro a; simp
  | cons p tl ih =>
      intro a
      simp only [List.foldl_cons, List.map_cons, List.sum_cons, ih, add_assoc]

/-- C5 (amended): on a clipped vertex list with at least 3 vertices whose
polygon area magnitude is below `1e-9`, `pressure_center` returns the
arithmetic mean of the vertices (it divides by the vertex count, never by
the near-zero area).  Lists with fewer than 3 vertices take the earlier
`(0, 0)` branch instead. -/
theorem pressure_center_degenerate_mean (l : List Vector2D)
    (h3 : 3 ≤ l.length) (harea : |polygon_area l| < 1e-9) :
    pressure_center l =
      ⟨(l.map (fun p => p.x)).sum / (l.length : ℚ),
        (l.map (fun p => p.y)).sum / (l.length : ℚ)⟩ := by
  rw [pressure_center, if_neg (by omega), if_pos harea]
  rw [foldl_add_eq_sum (fun p => p.x) l 0, foldl_add_eq_sum (fun p => p.y) l 0]
  simp

/-- Witness for the amended C5: a degenerate collinear 3-vertex list (area
`0`) gets the arithmetic mean `(1, -1)` of its vertices. -/
theorem pressure_center_degenerate_mean_witness :
    pressure_center [⟨0, -1⟩, ⟨1, -1⟩, ⟨2, -1⟩] = ⟨1, -1⟩ := by
  rw [pressure_center_degenerate_mean [⟨0, -1⟩, ⟨1, -1⟩, ⟨2, -1⟩]
    (by norm_num) (by norm_num [polygon_area, List.range_succ])]
  norm_num

/-- A polygon whose clip against the water line `0` has exactly 2 vertices:
the two crossing edges are nearly horizontal (`|dy| = 2e-13 < 1e-12`), so
both intersection points are suppressed by the horizontal-edge guard. -/
def exC5_poly : List Vector2D :=
  [⟨0, -1 / 10 ^ 13⟩, ⟨1, 1 / 10 ^ 13⟩, ⟨1 / 2, -1 / 10 ^ 13⟩]

/-- Counterexample for C5 as stated: a reachable clipped vertex list (the
clip of a concrete triangle) with polygon area magnitude `0 < 1e-9` on which
`pressure_center` returns `(0, 0)` -- the fewer-than-3-vertices branch --
rather than the arithmetic mean `(1/4, -1e-13)` of its vertices. -/
theorem pressure_center_two_vertex_counterexample :
    clip_polygon_below_line exC5_poly 0 =
      [⟨1 / 2, -1 / 10 ^ 13⟩, ⟨0, -1 / 10 ^ 13⟩] ∧
    |polygon_area (clip_polygon_below_line exC5_poly 0)| < 1e-9 ∧
    pressure_center (clip_polygon_below_line exC5_poly 0) = ⟨0, 0⟩ ∧
    pressure_center (clip_polygon_below_line exC5_poly 0) ≠
      ⟨(1 / 2 + 0) / 2, (-(1 / 10 ^ 13) + -(1 / 10 ^ 13)) / 2⟩ := by
  have hclip : clip_polygon_below_line exC5_poly 0 =
      [⟨1 / 2, -1 / 10 ^ 13⟩, ⟨0, -1 / 10 ^ 13⟩] := by
    norm_num [clip_polygon_below_line, intersect_with_horizontal, exC5_poly,
      List.range_succ, abs_lt]
  refine ⟨hclip, ?_, ?_, ?_⟩
  · rw [hclip]; norm_num [polygon_area]
  · rw [hclip]; norm_num [pressure_center]
  · rw [hclip]
    norm_num [pressure_center]

/-- Evaluating `List.getD` at an in-bounds index gives the indexed element. -/
theorem getD_of_lt {α : Type} (l : List α) (i : ℕ) (d : α) (h : i < l.length) :
    l.getD i d = l[i] := by
  simp [List.getD_eq_getElem?_getD, List.getElem?_eq_getElem h]

/-- A flatMap whose blocks are all singletons is a map. -/
theorem flatMap_eq_map_of {α β : Type} (l : List α) (f : α → List β)
    (g : α → β) (h : ∀ a ∈ l, f a = [g a]) : l.flatMap f = l.map g := by
  induction l with
  | nil => rfl
  | cons x xs ih =>
      simp only [List.flatMap_cons, List.map_cons]
      rw [h x (List.mem_cons_self x xs),
        ih (fun a ha => h a (List.mem_cons_of_mem x ha))]
      rfl

/-- Clipping a polygon that lies strictly below the line keeps every vertex
but rotates the vertex list left by one position: each loop iteration `i`
emits vertex `(i + 1) % n`. -/
theorem clip_all_below (Q : List Vector2D) (y0 : ℚ)
    (h : ∀ v ∈ Q, v.y < y0) :
    clip_polygon_below_line Q y0 = Q.rotate 1 := by
  rcases eq_or_ne Q.length 0 with h0 | h0
  · rw [List.length_eq_zero] at h0
    subst h0
    rfl
  · have hpos : 0 < Q.length := Nat.pos_of_ne_zero h0
    rw [clip_polygon_below_line]
    simp only [if_neg h0]
    rw [flatMap_eq_map_of (List.range Q.length) _
      (fun i => Q.getD ((i + 1) % Q.length) ⟨0, 0⟩) ?_]
    · apply List.ext_getElem
      · simp
      · intro i h1 h2
        simp only [List.getElem_map, List.getElem_range] at *
        rw [List.length_map, List.length_range] at h1
        rw [getD_of_lt _ _ _ (Nat.mod_lt _ hpos), List.getElem_rotate]
    · intro i hi
      rw [List.mem_range] at hi
      have hcur : (Q.getD i ⟨0, 0⟩).y < y0 :=
        h _ (getD_of_lt Q i ⟨0, 0⟩ hi ▸ List.getElem_mem _)
      have hnext : (Q.getD ((i + 1) % Q.length) ⟨0, 0⟩).y < y0 :=
        h _ (getD_of_lt Q _ ⟨0, 0⟩ (Nat.mod_lt _ hpos) ▸ List.getElem_mem _)
      simp only [if_pos hcur, if_pos hnext]

/-- C4 (amended): clipping twice against the same line equals clipping once
only up to a cyclic rotation of the vertex list: for a polygon strictly
below the line each clip pass rotates the vertex list left by one, so the
double clip is the single clip rotated, not the identical list. -/
theorem clip_twice_rotates (P : List Vector2D) (y0 : ℚ)
    (h : ∀ v ∈ P, v.y < y0) :
    clip_polygon_below_line (clip_polygon_below_line P y0) y0 =
      (clip_polygon_below_line P y0).rotate 1 := by
  have h2 : ∀ v ∈ P.rotate 1, v.y < y0 := fun v hv =>
    h v (List.mem_rotate.mp hv)
  rw [clip_all_below P y0 h, clip_all_below _ _ h2]

/-- Witness for the amended C4: for a concrete triangle strictly below the
line, the double clip is the single clip rotated left by one. -/
theorem clip_twice_rotates_witness :
    clip_polygon_below_line
        (clip_polygon_below_line [⟨0, -3⟩, ⟨1, -3⟩, ⟨0, -2⟩] 0) 0 =
      (clip_polygon_below_line [⟨0, -3⟩, ⟨1, -3⟩, ⟨0, -2⟩] 0).rotate 1 :=
  clip_twice_rotates [⟨0, -3⟩, ⟨1, -3⟩, ⟨0, -2⟩] 0 (by
    intro v hv
    simp only [List.mem_cons, List.not_mem_nil, or_false] at hv
    rcases hv with h | h | h <;> subst h <;> norm_num)

/-- Counterexample for C4 as stated: for the triangle
`[(0,-3), (1,-3), (0,-2)]` (entirely below the line `y = 0`) the double clip
is `[(0,-2), (0,-3), (1,-3)]` while the single clip is
`[(1,-3), (0,-2), (0,-3)]`: clipping twice does not equal clipping once. -/
theorem clip_idempotence_counterexample :
    clip_polygon_below_line
        (clip_polygon_below_line [⟨0, -3⟩, ⟨1, -3⟩, ⟨0, -2⟩] 0) 0 ≠
      clip_polygon_below_line [⟨0, -3⟩, ⟨1, -3⟩, ⟨0, -2⟩] 0 := by
  have e1 : clip_polygon_below_line [⟨0, -3⟩, ⟨1, -3⟩, ⟨0, -2⟩] (0 : ℚ) =
      [⟨1, -3⟩, ⟨0, -2⟩, ⟨0, -3⟩] := by
    norm_num [clip_polygon_below_line, intersect_with_horizontal,
      List.range_succ]
  have e2 : clip_polygon_below_line [⟨1, -3⟩, ⟨0, -2⟩, ⟨0, -3⟩] (0 : ℚ) =
      [⟨0, -2⟩, ⟨0, -3⟩, ⟨1, -3⟩] := by
    norm_num [clip_polygon_below_line, intersect_with_horizontal,
      List.range_succ]
  rw [e1, e2]
  intro hEq
  have := List.head_eq_of_cons_eq hEq
  simp only [Vector2D.mk.injEq] at this
  norm_num at this

/-- C6 (amended): `StoneProperties::new` returns the all-zero default
exactly when the outline's area magnitude is below `1e-9`; otherwise the
returned mass is `|area| * thickness * 2700` (the slate density constant),
regardless of the collision sample count. -/
theorem stone_properties_new_mass (F : FloatOps) (bp : StoneBlueprint) :
    (|calculate_polygon_area bp.points| < 1e-9 →
      StoneProperties.new F bp = StoneProperties.default) ∧
    (¬ |calculate_polygon_area bp.points| < 1e-9 →
      (StoneProperties.new F bp).mass =
        |calculate_polygon_area bp.points| * bp.thickness * 2700) := by
  constructor
  · intro h
    simp only [StoneProperties.new, if_pos h]
  · intro h
    simp only [StoneProperties.new, if_neg h, DENSITY_SLATE]
    norm_num

/-- A blueprint whose outline is empty (area `0`). -/
def exC6_empty : StoneBlueprint := ⟨[], 1, "empty"⟩

/-- A unit-square blueprint of thickness 1 (area `1`). -/
def exC6_square : StoneBlueprint :=
  ⟨[⟨0, 0⟩, ⟨1, 0⟩, ⟨1, 1⟩, ⟨0, 1⟩], 1, "unit square"⟩

/-- Witness for the amended C6: an empty outline yields the all-zero
default, and the unit square of thickness 1 gets mass
`|area| * thickness * 2700`. -/
theorem stone_properties_new_mass_witness :
    StoneProperties.new floatOps0 exC6_empty = StoneProperties.default ∧
    (StoneProperties.new floatOps0 exC6_square).mass =
      |calculate_polygon_area exC6_square.points| * exC6_square.thickness *
        2700 :=
  ⟨(stone_properties_new_mass floatOps0 exC6_empty).1
      (by norm_num [calculate_polygon_area, exC6_empty]),
    (stone_properties_new_mass floatOps0 exC6_square).2
      (by norm_num [calculate_polygon_area, exC6_square, List.range_succ])⟩

/-- A very thin, tall triangle: width `1e-10`, height `100`, area
`5e-9 ≥ 1e-9`.  Its bounding box is thinner than the `1e-9` guard of
`generate_collision_mesh`, so grid sampling yields no points at all. -/
def exC6_bp : StoneBlueprint :=
  ⟨[⟨0, 0⟩, ⟨1 / 10 ^ 10, 0⟩, ⟨0, 100⟩], 1, "sliver"⟩

/-- Counterexample for C6 as stated: a blueprint with area `5e-9` (not
rejected by the area guard) whose collision sample count is `0`, for which
`StoneProperties::new` does not return the all-zero `StoneProperties`: the
returned mass is nonzero. -/
theorem stone_properties_zero_samples_counterexample :
    ¬ |calculate_polygon_area exC6_bp.points| < 1e-9 ∧
    (StoneProperties.new floatOps0 exC6_bp).n = 0 ∧
    (StoneProperties.new floatOps0 exC6_bp).collision_mesh_com = [] ∧
    (StoneProperties.new floatOps0 exC6_bp).mass ≠ 0 ∧
    StoneProperties.new floatOps0 exC6_bp ≠ StoneProperties.default := by
  have harea : calculate_polygon_area exC6_bp.points = 5 / 10 ^ 9 := by
    norm_num [calculate_polygon_area, exC6_bp, List.range_succ]
  have hcent : calculate_centroid exC6_bp.points =
      ⟨1 / (3 * 10 ^ 10), 100 / 3⟩ := by
    norm_num [calculate_centroid, exC6_bp, List.range_succ]
  have hif : ¬ |calculate_polygon_area exC6_bp.points| < 1e-9 := by
    rw [harea]; norm_num [abs_of_nonneg]
  have hmesh : generate_collision_mesh floatOps0
      (exC6_bp.points.map (fun p => p - calculate_centroid exC6_bp.points))
      COLLISION_MESH_POINTS (calculate_polygon_area exC6_bp.points) = [] := by
    rw [hcent, harea]
    norm_num [generate_collision_mesh, find_aabb, f64_MAX, exC6_bp,
      Vector2D.sub_def, min_def, max_def, abs_of_nonneg]
  have hnew : StoneProperties.new floatOps0 exC6_bp =
      ⟨0, 27 / 2000000, 0, 0,
        exC6_bp.points.map (fun p => p - calculate_centroid exC6_bp.points),
        [], 0⟩ := by
    simp only [StoneProperties.new, if_neg hif]
    rw [hmesh, harea]
    simp only [calculate_inertia_z, calculate_inertia_y, List.length_nil,
      List.foldl_nil, StoneProperties.mk.injEq, DENSITY_SLATE, exC6_bp]
    norm_num [abs_of_nonneg]
  refine ⟨hif, ?_, ?_, ?_, ?_⟩
  · rw [hnew]
  · rw [hnew]
  · rw [hnew]; norm_num
  · rw [hnew]
    intro hEq
    rw [StoneProperties.default] at hEq
    simp only [StoneProperties.mk.injEq] at hEq
    norm_num at hEq

/-- C10 (amended): whenever the instantaneous submerged area computed from
the sub-step state is at most `1e-9`, the hydrodynamic force is exactly the
zero vector and the vertical acceleration of `deriv_bouncing` is exactly
`M * gravity / (M + rho * sim * 0.02 * 5)` -- the added-mass denominator --
which equals `+gravity` exactly when the submerged area is `0` (for nonzero
mass); the `Bouncing` gravity force term has positive vertical component
`M * gravity`, whereas `deriv_flying` uses `-gravity`. -/
theorem deriv_bouncing_small_area (F : FloatOps) (cfg : CustomSettings)
    (t : ℚ) (s : StoneInfo)
    (h : (calculate_instant_submerged F cfg s).1 ≤ 1e-9) :
    compute_hydro_force F cfg s (calculate_instant_submerged F cfg s).1 =
      ⟨0, 0⟩ ∧
    (deriv_bouncing F cfg t s).velocity.y =
      cfg.M * cfg.gravity /
        (cfg.M + cfg.rho * (calculate_instant_submerged F cfg s).1 *
          0.02 * 5.0) ∧
    ((calculate_instant_submerged F cfg s).1 = 0 → cfg.M ≠ 0 →
      (deriv_bouncing F cfg t s).velocity.y = cfg.gravity) ∧
    (deriv_flying cfg t s).velocity.y = -cfg.gravity := by
  have hforce : compute_hydro_force F cfg s
      (calculate_instant_submerged F cfg s).1 = ⟨0, 0⟩ := by
    simp only [compute_hydro_force]
    rw [if_pos h]
  have hvel : (deriv_bouncing F cfg t s).velocity.y =
      cfg.M * cfg.gravity /
        (cfg.M + cfg.rho * (calculate_instant_submerged F cfg s).1 *
          0.02 * 5.0) := by
    simp only [deriv_bouncing, hforce, Vector2D.add_def, Vector2D.mul_def]
    rw [zero_add, mul_one_div]
  refine ⟨hforce, hvel, ?_, rfl⟩
  intro h0 hM
  rw [hvel, h0]
  rw [mul_zero, zero_mul, zero_mul, add_zero]
  exact mul_div_cancel_left₀ cfg.gravity hM

/-- Witness for the amended C10: a configuration with an empty outline has
instantaneous submerged area `0`; its hydrodynamic force is zero, its
bouncing vertical acceleration is `M * gravity / (M + 0) = +gravity = 9.8`,
and its flying vertical acceleration is `-gravity`. -/
theorem deriv_bouncing_small_area_witness :
    compute_hydro_force floatOps0 exC1_cfg exC1_s1
      (calculate_instant_submerged floatOps0 exC1_cfg exC1_s1).1 = ⟨0, 0⟩ ∧
    (deriv_bouncing floatOps0 exC1_cfg 0 exC1_s1).velocity.y =
      exC1_cfg.M * exC1_cfg.gravity /
        (exC1_cfg.M + exC1_cfg.rho *
          (calculate_instant_submerged floatOps0 exC1_cfg exC1_s1).1 *
          0.02 * 5.0) ∧
    ((calculate_instant_submerged floatOps0 exC1_cfg exC1_s1).1 = 0 →
      exC1_cfg.M ≠ 0 →
      (deriv_bouncing floatOps0 exC1_cfg 0 exC1_s1).velocity.y =
        exC1_cfg.gravity) ∧
    (deriv_flying exC1_cfg 0 exC1_s1).velocity.y = -exC1_cfg.gravity :=
  deriv_bouncing_small_area floatOps0 exC1_cfg 0 exC1_s1
    (by norm_num [calculate_instant_submerged, outline_to_world,
      clip_polygon_below_line, exC1_cfg, StoneProperties.default])

/-- Configuration for the C10 counterexample: unit mass, `gravity = 10`,
`rho = 1000`, water at `0`, outline the triangle `[(0,-1), (1,1), (-1,1)]`
in the centre-of-mass frame. -/
def exC10_cfg : CustomSettings :=
  ⟨10, 1000, 0.2, 0.05, 0.01, 1, 0.02, Phase.Bouncing, 0,
    ⟨0, 1, 1, 1, [⟨0, -1⟩, ⟨1, 1⟩, ⟨-1, 1⟩], [], 0⟩, []⟩

/-- State for the C10 counterexample: the triangle's lower tip dips
`1e-5` below the water line, submerging a sliver of area `5e-11`. -/
def exC10_s : StoneInfo := ⟨⟨0, 1 - 1 / 10 ^ 5⟩, ⟨0, 0⟩, ⟨0, 0⟩, ⟨0, 0⟩⟩

/-- Counterexample for C10 as stated: a state whose instantaneous submerged
area is `5e-11` -- positive but at most `1e-9` -- for which the hydrodynamic
force is exactly zero yet the vertical acceleration is not exactly
`+gravity`: the added-mass term `rho * sim * 0.02 * 5` is nonzero, so the
acceleration is `M * gravity / (M + 5e-9) < gravity`. -/
theorem deriv_bouncing_small_area_counterexample :
    0 < (calculate_instant_submerged floatOps0 exC10_cfg exC10_s).1 ∧
    (calculate_instant_submerged floatOps0 exC10_cfg exC10_s).1 ≤ 1e-9 ∧
    compute_hydro_force floatOps0 exC10_cfg exC10_s
      (calculate_instant_submerged floatOps0 exC10_cfg exC10_s).1 = ⟨0, 0⟩ ∧
    (deriv_bouncing floatOps0 exC10_cfg 0 exC10_s).velocity.y ≠
      exC10_cfg.gravity := by
  have hsub : calculate_instant_submerged floatOps0 exC10_cfg exC10_s =
      (1 / (2 * 10 ^ 10),
        [⟨1 / 200000, 0⟩, ⟨-(1 / 200000), 0⟩, ⟨0, -(1 / 100000)⟩]) := by
    norm_num [calculate_instant_submerged, outline_to_world,
      clip_polygon_below_line, intersect_with_horizontal, polygon_area,
      exC10_cfg, exC10_s, floatOps0, List.range_succ, abs_lt, abs_of_nonneg]
  have hforce : compute_hydro_force floatOps0 exC10_cfg exC10_s
      (calculate_instant_submerged floatOps0 exC10_cfg exC10_s).1 =
      ⟨0, 0⟩ := by
    simp only [compute_hydro_force]
    rw [if_pos (by rw [hsub]; norm_num)]
  refine ⟨by rw [hsub]; norm_num, by rw [hsub]; norm_num, hforce, ?_⟩
  simp only [deriv_bouncing, hforce, Vector2D.add_def, Vector2D.mul_def]
  rw [hsub]
  norm_num [exC10_cfg]

end DapGame
